/-
Verification of the BLE datalogger protocol client (python-datalogger-tool).

This file gives a shallow embedding of the protocol core found in
sensor_command.py and datalogger_tool.py:

  * the DataView little-endian integer readers,
  * the notification handler that parses inbound GSP frames,
  * the FETCH_LOG streaming loop that writes offset-tagged payloads
    into a seekable sink (modelled as a list of bytes with Python
    file seek/write semantics, zero-filling holes),
  * the command serialisers (GET, SUBSCRIBE, PUT_DATALOGGER_CONFIG),
  * the erasemem confirmation prompt, the fleet retry supervisor and
    the process exit-code path of the CLI.

Bytes are modelled as natural numbers (wire bytes are 0..255); files
and payloads are lists of bytes; fallible parsing returns Option.
-/

import Mathlib

set_option linter.unusedVariables false

/-! ## DataView: little-endian integer readers (sensor_command.py, class DataView) -/

/-- Model of DataView.get_uint_8: the byte at index i. -/
def get_uint_8 (a : List Nat) (i : Nat) : Nat := a.getD i 0

/-- Model of DataView.get_uint_16: little-endian 16-bit word at index i. -/
def get_uint_16 (a : List Nat) (i : Nat) : Nat :=
  a.getD i 0 + 256 * a.getD (i + 1) 0

/-- Model of DataView.get_uint_32: little-endian 32-bit word at index i. -/
def get_uint_32 (a : List Nat) (i : Nat) : Nat :=
  a.getD i 0 + 256 * a.getD (i + 1) 0 + 65536 * a.getD (i + 2) 0
    + 16777216 * a.getD (i + 3) 0

/-! ## Inbound frame parsing (SensorCommand._notification_handler)

The handler reads response_code and reference (bytes 0 and 1); a
notification shorter than 2 bytes raises IndexError inside DataView and
is dropped (nothing is queued), modelled by returning none.

For a command response (response_code 1) of length at least 4 the
status word is the little-endian u16 at bytes 2-3 and the body starts
at byte 4 - except when the reference equals the registered HELLO
reference, in which case no status word is parsed, the status is
treated as 200 and the body starts at byte 2.  A command response
shorter than 4 bytes gets status None (modelled none) and an empty
body.  Data frames (response_code 2 or 3) carry their payload from
byte 2 on. -/

/-- A parsed notification as queued by the handler.  statusCode none models
Python None or an absent key; commandData / dataPayload default to empty. -/
structure RespData where
  responseCode : Nat
  reference : Nat
  statusCode : Option Nat
  commandData : List Nat
  dataPayload : List Nat
deriving DecidableEq, Repr

/-- Model of SensorCommand._notification_handler.  helloRef is the
hello_ref attribute (none when get_status has not registered it). -/
def notification_handler (helloRef : Option Nat) (data : List Nat) :
    Option RespData :=
  if 2 ≤ data.length then
    let rc := get_uint_8 data 0
    let ref := get_uint_8 data 1
    if rc = 1 then
      if 4 ≤ data.length then
        if helloRef = some ref then
          some ⟨rc, ref, some 200, data.drop 2, []⟩
        else
          some ⟨rc, ref, some (get_uint_16 data 2), data.drop 4, []⟩
      else
        some ⟨rc, ref, none, [], []⟩
    else if rc = 2 ∨ rc = 3 then
      some ⟨rc, ref, none, [], data.drop 2⟩
    else
      some ⟨rc, ref, none, [], []⟩
  else
    none

/-- C5 counterexample input: a 3-byte command response carrying the HELLO
reference.  The handler takes the length-under-4 branch: status None and
an empty body, not implicit status 200 with the body at byte 2. -/
theorem notification_handler_short_hello_counterexample :
    notification_handler (some 100) [1, 100, 5]
      = some ⟨1, 100, none, [], []⟩
    ∧ (notification_handler (some 100) [1, 100, 5]).map RespData.statusCode
      ≠ some (some 200)
    ∧ (notification_handler (some 100) [1, 100, 5]).map RespData.commandData
      ≠ some ([1, 100, 5].drop 2) := by
  decide

/-- C5 (amended): for command responses of length at least 4 the decoder
suppresses the status word exactly when the reference equals the registered
HELLO reference (status treated as 200, body from byte 2); for any other
reference the status word is the little-endian u16 at bytes 2-3 and the
body starts at byte 4. -/
theorem notification_handler_command_response (helloRef : Option Nat)
    (data : List Nat) (h4 : 4 ≤ data.length) (hrc : get_uint_8 data 0 = 1) :
    (helloRef = some (get_uint_8 data 1) →
      notification_handler helloRef data
        = some ⟨1, get_uint_8 data 1, some 200, data.drop 2, []⟩)
    ∧ (helloRef ≠ some (get_uint_8 data 1) →
      notification_handler helloRef data
        = some ⟨1, get_uint_8 data 1, some (get_uint_16 data 2),
            data.drop 4, []⟩) := by
  have h2 : 2 ≤ data.length := by omega
  constructor
  · intro hh
    simp [notification_handler, h2, h4, hrc, hh]
  · intro hh
    simp [notification_handler, h2, h4, hrc, hh]

/-- C5 witness: the amended decoding theorem applied to a concrete HELLO
response and to a concrete ordinary response. -/
theorem notification_handler_command_response_witness :
    notification_handler (some 100) [1, 100, 7, 8]
      = some ⟨1, 100, some 200, [7, 8], []⟩
    ∧ notification_handler (some 100) [1, 101, 200, 0, 9]
      = some ⟨1, 101, some 200, [9], []⟩ :=
  ⟨(notification_handler_command_response (some 100) [1, 100, 7, 8]
      (by decide) (by decide)).1 (by decide),
   (notification_handler_command_response (some 100) [1, 101, 200, 0, 9]
      (by decide) (by decide)).2 (by decide)⟩

/-! ## The seekable sink (Python file opened with mode wb)

seek(offset) followed by write(bytes) places the bytes at the given
offset; seeking past the end and writing zero-fills the hole; writing
inside the existing extent overwrites without truncating the tail. -/

/-- Python seek+write on a byte file modelled as a list. -/
def writeAt (f : List Nat) (off : Nat) (b : List Nat) : List Nat :=
  (f ++ List.replicate (off - f.length) 0).take off ++ b
    ++ f.drop (off + b.length)

/-- State of the FETCH_LOG streaming loop: the sink contents and the
last_offset variable of SensorCommand.fetch_data. -/
structure FetchSt where
  file : List Nat
  lastOffset : Nat
deriving DecidableEq, Repr

/-- One item obtained from the response queue in the streaming loop:
either a queued notification or the 30-second asyncio timeout. -/
inductive QEvent where
  | note (r : RespData)
  | timeout
deriving DecidableEq, Repr

/-- The while-loop of SensorCommand.fetch_data: data frames (response
code 2 or 3) with a payload of at least 4 bytes update last_offset with
the little-endian u32 header and write the remaining bytes at that
offset; an empty remainder ends the stream; a shorter payload ends the
loop with a warning; a timeout ends the loop; any other notification is
ignored and the loop continues. -/
def fetch_data_loop : List QEvent → FetchSt → FetchSt
  | [], st => st
  | QEvent.timeout :: _, st => st
  | QEvent.note r :: rest, st =>
    if r.responseCode = 2 ∨ r.responseCode = 3 then
      if 4 ≤ r.dataPayload.length then
        let off := get_uint_32 r.dataPayload 0
        if 4 < r.dataPayload.length then
          fetch_data_loop rest ⟨writeAt st.file off (r.dataPayload.drop 4), off⟩
        else
          ⟨st.file, off⟩
      else st
    else fetch_data_loop rest st

/-- The (offset, bytes) writes the streaming loop performs on the sink,
in order, for a given queue trace. -/
def writesOf : List QEvent → List (Nat × List Nat)
  | [] => []
  | QEvent.timeout :: _ => []
  | QEvent.note r :: rest =>
    if r.responseCode = 2 ∨ r.responseCode = 3 then
      if 4 ≤ r.dataPayload.length then
        if 4 < r.dataPayload.length then
          (get_uint_32 r.dataPayload 0, r.dataPayload.drop 4) :: writesOf rest
        else []
      else []
    else writesOf rest

/-- Folding a list of (offset, bytes) writes over a sink. -/
def applyWrites : List (Nat × List Nat) → List Nat → List Nat
  | [], f => f
  | (o, b) :: ws, f => applyWrites ws (writeAt f o b)

/-- The highest offset + length over a list of writes. -/
def maxExtent : List (Nat × List Nat) → Nat
  | [] => 0
  | (o, b) :: ws => max (o + b.length) (maxExtent ws)

/-- Total number of payload bytes over a list of writes. -/
def sumLens : List (Nat × List Nat) → Nat
  | [] => 0
  | (o, b) :: ws => b.length + sumLens ws

/-- The byte most recently written at position i by a list of writes
(later writes take precedence). -/
def lastWrite : List (Nat × List Nat) → Nat → Option Nat
  | [], _ => none
  | (o, b) :: ws, i =>
    match lastWrite ws i with
    | some v => some v
    | none => if o ≤ i ∧ i < o + b.length then b[i - o]? else none

/-- The device emits cumulative offsets: every data frame carries as its
offset the total number of payload bytes sent so far, and the stream is
closed by an empty-payload frame carrying the total. -/
def cumulSent : List QEvent → Nat → Bool
  | [], _ => false
  | QEvent.timeout :: _, _ => false
  | QEvent.note r :: rest, acc =>
    if r.responseCode = 2 ∨ r.responseCode = 3 then
      if 4 ≤ r.dataPayload.length then
        if 4 < r.dataPayload.length then
          (get_uint_32 r.dataPayload 0 == acc)
            && cumulSent rest (acc + (r.dataPayload.length - 4))
        else get_uint_32 r.dataPayload 0 == acc
      else false
    else cumulSent rest acc

theorem length_writeAt (f : List Nat) (o : Nat) (b : List Nat) :
    (writeAt f o b).length = max (o + b.length) f.length := by
  simp [writeAt]
  omega

theorem length_le_writeAt (f : List Nat) (o : Nat) (b : List Nat) :
    f.length ≤ (writeAt f o b).length := by
  rw [length_writeAt]
  omega

theorem getElem?_writeAt (f : List Nat) (o : Nat) (b : List Nat) (i : Nat) :
    (writeAt f o b)[i]? =
      if o ≤ i ∧ i < o + b.length then b[i - o]?
      else if i < o then (if i < f.length then f[i]? else some 0)
      else f[i]? := by
  have hT : ((f ++ List.replicate (o - f.length) 0).take o).length = o := by
    simp
    omega
  have hTb : (((f ++ List.replicate (o - f.length) 0).take o) ++ b).length
      = o + b.length := by
    rw [List.length_append, hT]
  rw [writeAt]
  by_cases hc : o ≤ i ∧ i < o + b.length
  · rw [if_pos hc]
    have h1 : i < (((f ++ List.replicate (o - f.length) 0).take o) ++ b).length := by
      rw [hTb]; omega
    rw [List.getElem?_append_left h1]
    have h2 : ((f ++ List.replicate (o - f.length) 0).take o).length ≤ i := by
      rw [hT]; omega
    rw [List.getElem?_append_right h2, hT]
  · rw [if_neg hc]
    by_cases hio : i < o
    · rw [if_pos hio]
      have h1 : i < (((f ++ List.replicate (o - f.length) 0).take o) ++ b).length := by
        rw [hTb]; omega
      rw [List.getElem?_append_left h1]
      have h2 : i < ((f ++ List.replicate (o - f.length) 0).take o).length := by
        rw [hT]; omega
      rw [List.getElem?_append_left h2]
      rw [List.getElem?_take_of_lt hio]
      by_cases hif : i < f.length
      · rw [if_pos hif, List.getElem?_append_left hif]
      · rw [if_neg hif, List.getElem?_append_right (by omega)]
        rw [List.getElem?_replicate, if_pos (by omega)]
    · rw [if_neg hio]
      have h1 : (((f ++ List.replicate (o - f.length) 0).take o) ++ b).length ≤ i := by
        rw [hTb]; omega
      rw [List.getElem?_append_right h1, hTb]
      rw [List.getElem?_drop]
      congr 1
      omega

theorem length_applyWrites (ws : List (Nat × List Nat)) (f : List Nat) :
    (applyWrites ws f).length = max (maxExtent ws) f.length := by
  induction ws generalizing f with
  | nil => simp [applyWrites, maxExtent]
  | cons w ws ih =>
    obtain ⟨o, b⟩ := w
    rw [applyWrites, ih, length_writeAt, maxExtent]
    omega

theorem applyWrites_untouched (ws : List (Nat × List Nat)) (g : List Nat)
    (i : Nat) (hi : i < g.length) (hnone : lastWrite ws i = none) :
    (applyWrites ws g)[i]? = g[i]? := by
  induction ws generalizing g with
  | nil => rfl
  | cons w ws ih =>
    obtain ⟨o, b⟩ := w
    rw [lastWrite] at hnone
    cases hl : lastWrite ws i with
    | some v => rw [hl] at hnone; simp at hnone
    | none =>
      rw [hl] at hnone
      have hnc : ¬ (o ≤ i ∧ i < o + b.length) := by
        intro hc
        rw [if_pos hc, List.getElem?_eq_getElem (by omega)] at hnone
        simp at hnone
      rw [applyWrites]
      rw [ih (writeAt g o b) (Nat.lt_of_lt_of_le hi (length_le_writeAt g o b)) hl]
      rw [getElem?_writeAt, if_neg hnc]
      by_cases hio : i < o
      · rw [if_pos hio, if_pos hi]
      · rw [if_neg hio]

theorem applyWrites_lastWrite (ws : List (Nat × List Nat)) (f : List Nat)
    (i : Nat) (v : Nat) (h : lastWrite ws i = some v) :
    (applyWrites ws f)[i]? = some v := by
  induction ws generalizing f with
  | nil => simp [lastWrite] at h
  | cons w ws ih =>
    obtain ⟨o, b⟩ := w
    rw [lastWrite] at h
    cases hl : lastWrite ws i with
    | some v0 =>
      rw [hl] at h
      cases h
      exact ih (writeAt f o b) hl
    | none =>
      rw [hl] at h
      by_cases hc : o ≤ i ∧ i < o + b.length
      · rw [if_pos hc] at h
        have hg : (writeAt f o b)[i]? = some v := by
          rw [getElem?_writeAt, if_pos hc]
          exact h
        have hlen : i < (writeAt f o b).length := by
          rw [length_writeAt]
          omega
        rw [applyWrites]
        rw [applyWrites_untouched ws (writeAt f o b) i hlen hl]
        exact hg
      · rw [if_neg hc] at h
        simp at h

theorem fetch_data_loop_file (events : List QEvent) (st : FetchSt) :
    (fetch_data_loop events st).file = applyWrites (writesOf events) st.file := by
  induction events generalizing st with
  | nil => rfl
  | cons e rest ih =>
    cases e with
    | timeout => rfl
    | note r =>
      by_cases h1 : r.responseCode = 2 ∨ r.responseCode = 3
      · by_cases h2 : 4 ≤ r.dataPayload.length
        · by_cases h3 : 4 < r.dataPayload.length
          · rw [fetch_data_loop, if_pos h1, if_pos h2]
            rw [writesOf, if_pos h1, if_pos h2, if_pos h3]
            simp only [if_pos h3]
            rw [ih, applyWrites]
          · rw [fetch_data_loop, if_pos h1, if_pos h2]
            rw [writesOf, if_pos h1, if_pos h2, if_neg h3]
            simp only [if_neg h3]
            rfl
        · rw [fetch_data_loop, if_pos h1, if_neg h2]
          rw [writesOf, if_pos h1, if_neg h2]
          rfl
      · rw [fetch_data_loop, if_neg h1, writesOf, if_neg h1, ih]

theorem fetch_data_loop_lastOffset_cumul (events : List QEvent)
    (st : FetchSt) (acc : Nat) (hc : cumulSent events acc = true) :
    (fetch_data_loop events st).lastOffset = acc + sumLens (writesOf events) := by
  induction events generalizing st acc with
  | nil => simp [cumulSent] at hc
  | cons e rest ih =>
    cases e with
    | timeout => simp [cumulSent] at hc
    | note r =>
      by_cases h1 : r.responseCode = 2 ∨ r.responseCode = 3
      · by_cases h2 : 4 ≤ r.dataPayload.length
        · by_cases h3 : 4 < r.dataPayload.length
          · rw [cumulSent, if_pos h1, if_pos h2, if_pos h3] at hc
            rw [Bool.and_eq_true, beq_iff_eq] at hc
            rw [fetch_data_loop, if_pos h1, if_pos h2]
            simp only [if_pos h3]
            rw [writesOf, if_pos h1, if_pos h2, if_pos h3]
            rw [ih _ _ hc.2, sumLens]
            simp
            omega
          · rw [cumulSent, if_pos h1, if_pos h2, if_neg h3, beq_iff_eq] at hc
            rw [fetch_data_loop, if_pos h1, if_pos h2]
            simp only [if_neg h3]
            rw [writesOf, if_pos h1, if_pos h2, if_neg h3]
            simp [sumLens, hc]
        · rw [cumulSent, if_pos h1, if_neg h2] at hc
          simp at hc
      · rw [cumulSent, if_neg h1] at hc
        rw [fetch_data_loop, if_neg h1, writesOf, if_neg h1]
        exact ih _ _ hc

theorem maxExtent_cumul (events : List QEvent) (acc : Nat)
    (hc : cumulSent events acc = true) :
    maxExtent (writesOf events)
      = if writesOf events = [] then 0
        else acc + sumLens (writesOf events) := by
  induction events generalizing acc with
  | nil => simp [cumulSent] at hc
  | cons e rest ih =>
    cases e with
    | timeout => simp [cumulSent] at hc
    | note r =>
      by_cases h1 : r.responseCode = 2 ∨ r.responseCode = 3
      · by_cases h2 : 4 ≤ r.dataPayload.length
        · by_cases h3 : 4 < r.dataPayload.length
          · rw [cumulSent, if_pos h1, if_pos h2, if_pos h3] at hc
            rw [Bool.and_eq_true, beq_iff_eq] at hc
            rw [writesOf, if_pos h1, if_pos h2, if_pos h3]
            rw [maxExtent, sumLens, hc.1]
            rw [ih _ hc.2]
            rw [if_neg (List.cons_ne_nil _ _)]
            by_cases hws : writesOf rest = []
            · rw [if_pos hws, hws]
              simp [sumLens]
            · rw [if_neg hws]
              simp
              omega
          · rw [writesOf, if_pos h1, if_pos h2, if_neg h3]
            simp [maxExtent]
        · rw [cumulSent, if_pos h1, if_neg h2] at hc
          simp at hc
      · rw [cumulSent, if_neg h1] at hc
        rw [writesOf, if_neg h1]
        exact ih _ hc

/-- C1 (amended): for every FETCH_LOG streaming trace, starting from an
empty sink, (a) the final byte count of the sink equals the highest
offset + payload length over the writes the loop performed (frames with
a non-empty payload), (b) every position that was written at least once
holds the byte most recently written there, and (c) the reported size
(last_offset) equals that highest extent when the device emits
cumulative offsets and closes the stream with an empty frame carrying
the total byte count.  In general the reported size is only the offset
field of the last processed frame, not the highest extent. -/
theorem fetch_log_file_contents (events : List QEvent) :
    ((fetch_data_loop events ⟨[], 0⟩).file.length = maxExtent (writesOf events))
    ∧ (∀ i v, lastWrite (writesOf events) i = some v →
        (fetch_data_loop events ⟨[], 0⟩).file[i]? = some v)
    ∧ (cumulSent events 0 = true →
        (fetch_data_loop events ⟨[], 0⟩).lastOffset
          = maxExtent (writesOf events)) := by
  refine ⟨?_, ?_, ?_⟩
  · rw [fetch_data_loop_file, length_applyWrites]
    simp
  · intro i v h
    rw [fetch_data_loop_file]
    exact applyWrites_lastWrite _ _ _ _ h
  · intro hc
    rw [fetch_data_loop_lastOffset_cumul events _ 0 hc, maxExtent_cumul events 0 hc]
    by_cases hws : writesOf events = []
    · rw [if_pos hws, hws]
      simp [sumLens]
    · rw [if_neg hws]

/-- A concrete cumulative-offset stream: [7,7] at 0, [8] at 2, empty
sentinel carrying 3. -/
def sampleFetchEvents : List QEvent :=
  [QEvent.note ⟨2, 101, none, [], [0, 0, 0, 0, 7, 7]⟩,
   QEvent.note ⟨2, 101, none, [], [2, 0, 0, 0, 8]⟩,
   QEvent.note ⟨2, 101, none, [], [3, 0, 0, 0]⟩]

/-- C1 witness: the amended transfer theorem applied to a concrete
cumulative stream. -/
theorem fetch_log_file_contents_witness :
    (fetch_data_loop sampleFetchEvents ⟨[], 0⟩).file[2]? = some 8
    ∧ (fetch_data_loop sampleFetchEvents ⟨[], 0⟩).lastOffset
        = maxExtent (writesOf sampleFetchEvents) :=
  ⟨(fetch_log_file_contents sampleFetchEvents).2.1 2 8 (by decide),
   (fetch_log_file_contents sampleFetchEvents).2.2 (by decide)⟩

/-! ## SensorCommand.fetch_data around the streaming loop

send_command clears the queue, writes the FETCH_LOG command, then takes
the FIRST queued item as the command response.  fetch_data returns an
Unexpected-response error if that item is not a command response, a
command-failed error carrying the status if the status differs from
200, and otherwise runs the streaming loop and reports success with
size = last_offset. -/

/-- The error shapes fetch_data can return (the error strings of the
source, as a type). -/
inductive FetchErr where
  | unexpectedResponse
  | commandFailed
  | commandTimeout
deriving DecidableEq, Repr

/-- The dictionary fetch_data returns.  hasStatusKey records whether the
Python dict contains the status_code key (the supervisor loop tests key
membership); file is the sink contents on disk; size is the reported
size (absent on error returns). -/
structure FetchResult where
  success : Bool
  hasStatusKey : Bool
  statusCode : Option Nat
  errorKind : Option FetchErr
  file : List Nat
  size : Option Nat
deriving DecidableEq, Repr

/-- Model of SensorCommand.fetch_data, given the queue contents (in
arrival order) after the FETCH_LOG command was written.  An empty or
timeout-first queue models the 10 s send_command timeout, which the
outer except-block turns into a generic error return. -/
def fetch_data : List QEvent → FetchResult
  | [] => ⟨false, false, none, some FetchErr.commandTimeout, [], none⟩
  | QEvent.timeout :: _ => ⟨false, false, none, some FetchErr.commandTimeout, [], none⟩
  | QEvent.note r :: rest =>
    if r.responseCode ≠ 1 then
      ⟨false, false, none, some FetchErr.unexpectedResponse, [], none⟩
    else if r.statusCode ≠ some 200 then
      ⟨false, true, r.statusCode, some FetchErr.commandFailed, [], none⟩
    else
      let st := fetch_data_loop rest ⟨[], 0⟩
      ⟨true, false, none, none, st.file, some st.lastOffset⟩

/-- A raw transport event: an inbound notification or an idle timeout. -/
inductive WireEv where
  | rx (data : List Nat)
  | timeout
deriving DecidableEq, Repr

/-- The notification handler applied to each raw notification; frames
that raise inside the handler are not queued. -/
def toQ (helloRef : Option Nat) : List WireEv → List QEvent
  | [] => []
  | WireEv.timeout :: rest => QEvent.timeout :: toQ helloRef rest
  | WireEv.rx d :: rest =>
    match notification_handler helloRef d with
    | some r => QEvent.note r :: toQ helloRef rest
    | none => toQ helloRef rest

/-- fetch_data on raw wire bytes. -/
def fetch_data_wire (helloRef : Option Nat) (wire : List WireEv) : FetchResult :=
  fetch_data (toQ helloRef wire)

/-- C1 counterexample: a completed transfer (empty-payload sentinel)
whose sentinel offset is NOT the cumulative count.  Three bytes are
written at offset 0, the sentinel carries offset 1; the reported size
is 1 while the file holds 3 bytes and the highest offset + len(payload)
is 3. -/
def rewindSentinelWire : List WireEv :=
  [WireEv.rx [1, 101, 200, 0],
   WireEv.rx [2, 101, 0, 0, 0, 0, 7, 7, 7],
   WireEv.rx [2, 101, 1, 0, 0, 0]]

/-- C1 counterexample: the reported size differs from both the file's
final byte count and the highest offset + payload length. -/
theorem fetch_log_size_counterexample :
    (fetch_data_wire none rewindSentinelWire).success = true
    ∧ (fetch_data_wire none rewindSentinelWire).size = some 1
    ∧ (fetch_data_wire none rewindSentinelWire).file.length = 3
    ∧ maxExtent (writesOf (toQ none rewindSentinelWire)) = 3
    ∧ (fetch_data_wire none rewindSentinelWire).size
        ≠ some (maxExtent (writesOf (toQ none rewindSentinelWire)))
    ∧ (fetch_data_wire none rewindSentinelWire).size
        ≠ some (fetch_data_wire none rewindSentinelWire).file.length := by
  decide

/-- C2 counterexample: a data frame arriving before the FETCH_LOG
command response.  send_command dequeues the data frame as the command
response; fetch_data returns the Unexpected-response error and the
frame's 3-byte payload is never written to the sink. -/
theorem fetch_data_early_data_frame_counterexample :
    fetch_data_wire none
        [WireEv.rx [2, 101, 0, 0, 0, 0, 7, 7, 7], WireEv.rx [1, 101, 200, 0]]
      = ⟨false, false, none, some FetchErr.unexpectedResponse, [], none⟩
    ∧ (fetch_data_wire none
        [WireEv.rx [2, 101, 0, 0, 0, 0, 7, 7, 7],
         WireEv.rx [1, 101, 200, 0]]).file = [] := by
  decide

/-- C2 (amended): a data frame that reaches the queue before the command
response is retained (the queue is armed before the command is written)
but is consumed by send_command as the command response: fetch_data
fails with the Unexpected-response error and no payload reaches the
sink, regardless of what follows in the queue. -/
theorem fetch_data_early_data_frame (r : RespData) (rest : List QEvent)
    (h : r.responseCode ≠ 1) :
    fetch_data (QEvent.note r :: rest)
      = ⟨false, false, none, some FetchErr.unexpectedResponse, [], none⟩ := by
  rw [fetch_data, if_pos h]

/-- C2 witness: the amended theorem applied to a concrete early data
frame. -/
theorem fetch_data_early_data_frame_witness :
    fetch_data (QEvent.note ⟨2, 101, none, [], [0, 0, 0, 0, 7]⟩
        :: [QEvent.note ⟨1, 101, some 200, [], []⟩])
      = ⟨false, false, none, some FetchErr.unexpectedResponse, [], none⟩ :=
  fetch_data_early_data_frame ⟨2, 101, none, [], [0, 0, 0, 0, 7]⟩
    [QEvent.note ⟨1, 101, some 200, [], []⟩] (by decide)

/-- Every event is a data frame performing a non-empty write, so the
streaming loop consumes the whole list without breaking. -/
def allWrites : List QEvent → Bool
  | [] => true
  | QEvent.timeout :: _ => false
  | QEvent.note r :: rest =>
    (decide (r.responseCode = 2 ∨ r.responseCode = 3)
      && decide (4 < r.dataPayload.length))
      && allWrites rest

theorem fetch_data_loop_allWrites (pre : List QEvent) (st : FetchSt)
    (hw : allWrites pre = true) :
    fetch_data_loop (pre ++ [QEvent.timeout]) st = fetch_data_loop pre st := by
  induction pre generalizing st with
  | nil => rfl
  | cons e rest ih =>
    cases e with
    | timeout => simp [allWrites] at hw
    | note r =>
      rw [allWrites, Bool.and_eq_true, Bool.and_eq_true] at hw
      have h1 : r.responseCode = 2 ∨ r.responseCode = 3 :=
        of_decide_eq_true hw.1.1
      have h3 : 4 < r.dataPayload.length := of_decide_eq_true hw.1.2
      have h2 : 4 ≤ r.dataPayload.length := by omega
      rw [List.cons_append, fetch_data_loop, if_pos h1, if_pos h2]
      rw [fetch_data_loop, if_pos h1, if_pos h2]
      simp only [if_pos h3]
      exact ih _ hw.2

/-- C4 (amended): a FETCH_LOG transfer in which no frame arrives within
30 seconds stops the streaming loop, but the operation reports SUCCESS
with the partial transfer written so far (size = the last offset seen);
no StreamTimeout error is surfaced. -/
theorem fetch_data_stream_timeout (r : RespData) (pre : List QEvent)
    (h1 : r.responseCode = 1) (h2 : r.statusCode = some 200)
    (hw : allWrites pre = true) :
    fetch_data (QEvent.note r :: (pre ++ [QEvent.timeout]))
      = ⟨true, false, none, none, (fetch_data_loop pre ⟨[], 0⟩).file,
          some (fetch_data_loop pre ⟨[], 0⟩).lastOffset⟩ := by
  rw [fetch_data, if_neg (by simp [h1]), if_neg (by simp [h2])]
  rw [fetch_data_loop_allWrites pre ⟨[], 0⟩ hw]

/-- C4 witness: the amended theorem applied to a concrete trace with one
write followed by the 30-second timeout. -/
theorem fetch_data_stream_timeout_witness :
    fetch_data (QEvent.note ⟨1, 101, some 200, [], []⟩
        :: ([QEvent.note ⟨2, 101, none, [], [0, 0, 0, 0, 9]⟩]
            ++ [QEvent.timeout]))
      = ⟨true, false, none, none,
          (fetch_data_loop [QEvent.note ⟨2, 101, none, [], [0, 0, 0, 0, 9]⟩]
            ⟨[], 0⟩).file,
          some (fetch_data_loop [QEvent.note ⟨2, 101, none, [], [0, 0, 0, 0, 9]⟩]
            ⟨[], 0⟩).lastOffset⟩ :=
  fetch_data_stream_timeout ⟨1, 101, some 200, [], []⟩
    [QEvent.note ⟨2, 101, none, [], [0, 0, 0, 0, 9]⟩] rfl rfl (by decide)

/-- C4 counterexample: no data frame ever arrives; the 30 s timeout
fires and fetch_data returns success with no error, not a StreamTimeout
error. -/
theorem fetch_data_stream_timeout_counterexample :
    fetch_data_wire none [WireEv.rx [1, 101, 200, 0], WireEv.timeout]
      = ⟨true, false, none, none, [], some 0⟩
    ∧ (fetch_data_wire none [WireEv.rx [1, 101, 200, 0], WireEv.timeout]).success
        = true
    ∧ (fetch_data_wire none [WireEv.rx [1, 101, 200, 0], WireEv.timeout]).errorKind
        = none := by
  decide

/-! ## The fleet fetch loop (datalogger_tool.fetch_data) -/

/-- The dictionary datalogger_tool.fetch_data returns: success flag and
the number of logs fetched before the loop broke. -/
structure ToolFetchResult where
  success : Bool
  fetchedLogs : Nat
deriving DecidableEq, Repr

/-- The while-loop of datalogger_tool.fetch_data: fetch log 1, 2, ...
until a per-log fetch fails; a failing result with status 404 (or with
no status key at all) is replaced by the benign sentinel, any other
failure is logged - either way the loop breaks and the function falls
through to return overall success with the logs fetched so far.  fuel
bounds the iterations; none models a run that never breaks. -/
def tool_fetch_loop (f : Nat → FetchResult) : Nat → Nat → Option ToolFetchResult
  | 0, _ => none
  | fuel + 1, logId =>
    if (f logId).success then tool_fetch_loop f fuel (logId + 1)
    else some ⟨true, logId - 1⟩

/-- datalogger_tool.fetch_data: the loop starting at log id 1. -/
def tool_fetch_data (f : Nat → FetchResult) (fuel : Nat) : Option ToolFetchResult :=
  tool_fetch_loop f fuel 1

/-- C3: a FETCH_LOG whose first response carries a non-200 status is
returned by SensorCommand.fetch_data as an error carrying that status,
without entering the streaming loop (the result does not depend on the
rest of the queue); when the status is 404 the fleet fetch loop breaks
on that result and reports overall success with zero further logs - the
benign no-more-logs sentinel. -/
theorem fetch_log_404_no_more_logs (r : RespData) (rest : List QEvent)
    (f : Nat → FetchResult) (fuel : Nat) (s : Nat)
    (hrc : r.responseCode = 1) (hs : r.statusCode = some s) (hne : s ≠ 200) :
    (fetch_data (QEvent.note r :: rest)
      = ⟨false, true, some s, some FetchErr.commandFailed, [], none⟩)
    ∧ (f 1 = ⟨false, true, some 404, some FetchErr.commandFailed, [], none⟩ →
        tool_fetch_data f (fuel + 1) = some ⟨true, 0⟩) := by
  constructor
  · rw [fetch_data, if_neg (by simp [hrc]), if_pos (by simp [hs, hne]), hs]
  · intro hf
    rw [tool_fetch_data, tool_fetch_loop, hf]
    simp

/-- C3 witness: the 404 theorem applied to a concrete 404 response and a
concrete fleet loop. -/
theorem fetch_log_404_no_more_logs_witness :
    (fetch_data [QEvent.note ⟨1, 101, some 404, [], []⟩]
      = ⟨false, true, some 404, some FetchErr.commandFailed, [], none⟩)
    ∧ tool_fetch_data
        (fun _ => ⟨false, true, some 404, some FetchErr.commandFailed, [], none⟩)
        5 = some ⟨true, 0⟩ :=
  ⟨(fetch_log_404_no_more_logs ⟨1, 101, some 404, [], []⟩ []
      (fun _ => ⟨false, true, some 404, some FetchErr.commandFailed, [], none⟩)
      4 404 rfl rfl (by decide)).1,
   (fetch_log_404_no_more_logs ⟨1, 101, some 404, [], []⟩ []
      (fun _ => ⟨false, true, some 404, some FetchErr.commandFailed, [], none⟩)
      4 404 rfl rfl (by decide)).2 rfl⟩

/-! ## Command serialisation: GET and SUBSCRIBE (C6) -/

/-- ASCII bytes of the resource path /Mem/DataLogger/State. -/
def memDataLoggerStatePath : List Nat :=
  [47, 77, 101, 109, 47, 68, 97, 116, 97, 76, 111, 103, 103, 101, 114,
   47, 83, 116, 97, 116, 101]

/-- The GET issued inline by SensorCommand.get_status:
bytearray([GSP_CMD_GET, 101] + list(path.encode())) - the path bytes
are appended WITHOUT a NUL terminator. -/
def dlstate_command : List Nat := [4, 101] ++ memDataLoggerStatePath

/-- SensorCommand.get_resource: opcode GET (4), reference 105, then the
UTF-8 path followed by a NUL byte. -/
def get_resource_command (path : List Nat) : List Nat :=
  [4, 105] ++ (path ++ [0])

/-- SensorCommand.subscribe_to_resource: opcode SUBSCRIBE (1), the
caller's reference, then the UTF-8 path followed by a NUL byte. -/
def subscribe_command (ref : Nat) (path : List Nat) : List Nat :=
  [1, ref] ++ (path ++ [0])

/-- C6 counterexample: the GET of /Mem/DataLogger/State issued by
get_status does NOT carry a NUL-terminated path - its payload is the
bare path bytes and its last byte is 101 (the letter e), not 0. -/
theorem get_status_path_no_nul_counterexample :
    dlstate_command = [4, 101] ++ memDataLoggerStatePath
    ∧ dlstate_command ≠ [4, 101] ++ memDataLoggerStatePath ++ [0]
    ∧ dlstate_command.getLast? ≠ some 0 := by
  decide

/-- C6 (amended): the GET built by get_resource and every SUBSCRIBE
carry a single NUL-terminated path after the opcode and reference
bytes; the GET issued inline by get_status carries the bare path bytes
with no NUL terminator. -/
theorem get_subscribe_nul_terminated (path : List Nat) (ref : Nat) :
    (get_resource_command path).drop 2 = path ++ [0]
    ∧ (get_resource_command path).getLast? = some 0
    ∧ (subscribe_command ref path).drop 2 = path ++ [0]
    ∧ (subscribe_command ref path).getLast? = some 0
    ∧ dlstate_command.drop 2 = memDataLoggerStatePath := by
  refine ⟨rfl, ?_, rfl, ?_, rfl⟩
  · rw [get_resource_command, ← List.append_assoc, List.getLast?_concat]
  · rw [subscribe_command, ← List.append_assoc, List.getLast?_concat]

/-! ## PUT_DATALOGGER_CONFIG payload (C7) -/

/-- ASCII bytes of the implicit path /Time/Detailed. -/
def timeDetailed : List Nat :=
  [47, 84, 105, 109, 101, 47, 68, 101, 116, 97, 105, 108, 101, 100]

/-- A NUL-terminated path, as extended into the config buffer. -/
def nulTerm (p : List Nat) : List Nat := p ++ [0]

/-- datalogger_tool.configure_device: appends /Time/Detailed to the
caller's path list IN PLACE (paths.append mutates the caller's list),
then builds the wire payload by concatenating each path
NUL-terminated.  Returns (wire payload, the list after mutation). -/
def configure_device (paths : List (List Nat)) : List Nat × List (List Nat) :=
  let paths2 := paths ++ [timeDetailed]
  (paths2.foldl (fun acc p => acc ++ nulTerm p) [], paths2)

theorem foldl_nulTerm_append (l : List (List Nat)) (acc : List Nat) :
    l.foldl (fun a p => a ++ nulTerm p) acc
      = acc ++ l.foldl (fun a p => a ++ nulTerm p) [] := by
  induction l generalizing acc with
  | nil => simp
  | cons x xs ih =>
    rw [List.foldl_cons, List.foldl_cons, ih, ih (List.nil ++ nulTerm x)]
    simp

/-- C7 counterexample: repeating configure with the list produced by the
first call (the caller's mutated list, as the retry supervisor does)
sends a different wire payload - it has gained a second copy of
/Time/Detailed. -/
theorem configure_device_repeat_counterexample :
    (configure_device (configure_device [[47, 97]]).2).1
      ≠ (configure_device [[47, 97]]).1
    ∧ (configure_device [[47, 97]]).1
      = nulTerm [47, 97] ++ nulTerm timeDetailed
    ∧ (configure_device (configure_device [[47, 97]]).2).1
      = nulTerm [47, 97] ++ nulTerm timeDetailed ++ nulTerm timeDetailed := by
  decide

/-- C7 (amended): each configure invocation appends exactly one copy of
/Time/Detailed after the paths in the list it is given, and mutates
that list; a second invocation reusing the mutated list therefore sends
the first payload with one extra NUL-terminated /Time/Detailed, so
repetition is a no-op at the transfer layer only when the caller
supplies a fresh copy of the original paths. -/
theorem configure_device_time_detailed (paths : List (List Nat)) :
    (configure_device paths).1
      = paths.foldl (fun a p => a ++ nulTerm p) [] ++ nulTerm timeDetailed
    ∧ (configure_device paths).2 = paths ++ [timeDetailed]
    ∧ (configure_device (configure_device paths).2).1
      = (configure_device paths).1 ++ nulTerm timeDetailed := by
  refine ⟨?_, rfl, ?_⟩
  · show (paths ++ [timeDetailed]).foldl (fun a p => a ++ nulTerm p) [] = _
    rw [List.foldl_append, List.foldl_cons, List.foldl_nil]
  · show ((paths ++ [timeDetailed]) ++ [timeDetailed]).foldl
        (fun a p => a ++ nulTerm p) [] = _
    rw [List.foldl_append, List.foldl_cons, List.foldl_nil]
    rfl

/-! ## erasemem confirmation prompt (datalogger_tool.erasemem_command) -/

/-- The whitespace characters Python str.strip removes. -/
def isPySpace (c : Nat) : Bool :=
  c == 32 || c == 9 || c == 10 || c == 13 || c == 11 || c == 12

/-- Python str.strip on a byte string. -/
def pyStrip (s : List Nat) : List Nat :=
  ((s.dropWhile isPySpace).reverse.dropWhile isPySpace).reverse

/-- Python str.lower on ASCII codes. -/
def pyLower (s : List Nat) : List Nat :=
  s.map (fun c => if 65 ≤ c ∧ c ≤ 90 then c + 32 else c)

/-- ASCII bytes of the accepted answer yes. -/
def yesBytes : List Nat := [121, 101, 115]

/-- ASCII bytes of the accepted answer y. -/
def yBytes : List Nat := [121]

/-- datalogger_tool.erasemem_command: with force the erase is sent
directly; without force the user's input is stripped and lowercased,
and the erase is sent only when it matches yes or y (the source lowers
the already-lowered response a second time before comparing); a
declined prompt returns True without sending.  Result: (whether
CLEAR_LOGBOOK was sent, the boolean outcome reported to the
supervisor). -/
def erasemem_command (force : Bool) (input : List Nat) (eraseResult : Bool) :
    Bool × Bool :=
  if force then (true, eraseResult)
  else
    let resp := pyLower (pyStrip input)
    if pyLower resp = yesBytes ∨ pyLower resp = yBytes then (true, eraseResult)
    else (false, true)

theorem pyLower_idem (s : List Nat) : pyLower (pyLower s) = pyLower s := by
  induction s with
  | nil => rfl
  | cons c cs ih =>
    simp only [pyLower, List.map_cons] at *
    congr 1
    by_cases h : 65 ≤ c ∧ c ≤ 90
    · rw [if_pos h, if_neg (by omega)]
    · rw [if_neg h, if_neg h]

/-- C8: without force, the CLEAR_LOGBOOK command is sent if and only if
the input, stripped and lowercased, equals yes or y; every other input
sends nothing. -/
theorem erasemem_confirmation (input : List Nat) (eraseResult : Bool) :
    (erasemem_command false input eraseResult).1 = true
      ↔ (pyLower (pyStrip input) = yesBytes
          ∨ pyLower (pyStrip input) = yBytes) := by
  by_cases hc : pyLower (pyStrip input) = yesBytes
      ∨ pyLower (pyStrip input) = yBytes
  · simp [erasemem_command, pyLower_idem, hc]
  · simp [erasemem_command, pyLower_idem, hc]

/-- C8 witness: the confirmation theorem applied to the input
space-Y-e-s-newline, which is accepted, and to n-o, which is not. -/
theorem erasemem_confirmation_witness :
    (erasemem_command false [32, 89, 101, 115, 10] true).1 = true
    ∧ ¬ (erasemem_command false [110, 111] true).1 = true :=
  ⟨(erasemem_confirmation [32, 89, 101, 115, 10] true).mpr
      (Or.inl (by decide)),
   fun h => by
    have h2 := (erasemem_confirmation [110, 111] true).mp h
    revert h2
    decide⟩

/-! ## Fleet supervisor and CLI exit code (datalogger_tool) -/

/-- The retry loop of all_sensors_command: one pass runs the per-serial
operation and collects the serials whose operation returned false (or
raised); the loop stops when nothing failed or after the allowed number
of passes; the returned list is the serials still failing when it
exits.  op takes the pass number and the serial. -/
def all_sensors_loop (op : Nat → String → Bool) :
    Nat → Nat → List String → List String
  | _, 0, serials => serials
  | attempt, fuel + 1, serials =>
    let next := serials.filter (fun s => ! op attempt s)
    if next.isEmpty then [] else all_sensors_loop op (attempt + 1) fuel next

/-- datalogger_tool.all_sensors_command: while retry_count <= retrys,
i.e. at most retrys + 1 passes. -/
def all_sensors_command (op : Nat → String → Bool) (serials : List String)
    (retrys : Nat) : List String :=
  all_sensors_loop op 0 (retrys + 1) serials

/-- datalogger_tool.main: with no subcommand it prints help and exits 1;
otherwise it dispatches through all_sensors_command (retrys 0 for the
status command, 10 otherwise), discards the outcome, and falls off the
end of main - so the process exits 0 no matter which serials still
fail. -/
def mainExitCode (command : Option Nat) (op : Nat → String → Bool)
    (serials : List String) : Nat :=
  match command with
  | none => 1
  | some c =>
    let retrys := if c = 0 then 0 else 10
    let finalPending := all_sensors_command op serials retrys
    0

/-- C9 counterexample: a device that fails every attempt is still
pending after all retries are exhausted, yet the process exit code is
0, not non-zero. -/
theorem exit_code_counterexample :
    all_sensors_command (fun _ _ => false) ["000455"] 10 = ["000455"]
    ∧ mainExitCode (some 4) (fun _ _ => false) ["000455"] = 0 := by
  constructor
  · rfl
  · rfl

/-- C9 (amended): the process exit code is 1 when no subcommand is
given and 0 whenever a subcommand runs, regardless of the per-device
outcomes; failures surviving all retries are only printed. -/
theorem exit_code_always_zero (c : Nat) (op : Nat → String → Bool)
    (serials : List String) :
    mainExitCode (some c) op serials = 0
    ∧ mainExitCode none op serials = 1 :=
  ⟨rfl, rfl⟩

/-- C9 witness: the amended theorem at a concrete command. -/
theorem exit_code_always_zero_witness :
    mainExitCode (some 1) (fun _ _ => true) [] = 0 :=
  (exit_code_always_zero 1 (fun _ _ => true) []).1

theorem all_sensors_loop_all_ok (op : Nat → String → Bool)
    (hop : ∀ a s, op a s = true) (a fuel : Nat) (serials : List String) :
    all_sensors_loop op a (fuel + 1) serials = [] := by
  rw [all_sensors_loop]
  have hf : serials.filter (fun s => ! op a s) = [] := by
    rw [List.filter_eq_nil_iff]
    intro s hs
    simp [hop a s]
  rw [hf]
  rfl

/-- C10: when the user declines the erasemem confirmation, the
per-device outcome reported to the supervisor is True, so one pass of
the retry loop leaves no serial pending - a declined erase is never
retried. -/
theorem erasemem_decline_no_retry (input : List Nat) (eraseResult : Bool)
    (serials : List String)
    (h1 : pyLower (pyStrip input) ≠ yesBytes)
    (h2 : pyLower (pyStrip input) ≠ yBytes) :
    (erasemem_command false input eraseResult).2 = true
    ∧ all_sensors_command
        (fun _ _ => (erasemem_command false input eraseResult).2) serials 10
      = [] := by
  have hout : (erasemem_command false input eraseResult).2 = true := by
    simp [erasemem_command, pyLower_idem, h1, h2]
  refine ⟨hout, ?_⟩
  rw [all_sensors_command]
  exact all_sensors_loop_all_ok _ (fun a s => hout) 0 10 serials

/-- C10 witness: the decline theorem applied to the input n-o. -/
theorem erasemem_decline_no_retry_witness :
    (erasemem_command false [110, 111] true).2 = true
    ∧ all_sensors_command
        (fun _ _ => (erasemem_command false [110, 111] true).2) ["000455"] 10
      = [] :=
  erasemem_decline_no_retry [110, 111] true ["000455"] (by decide) (by decide)
